import Mathlib

/-
Verification development for the Vehicle Rental web application
(reservation and pricing engine).

Shallow embedding of the Python core:
  * `rental_period.py`   -> `RentalPeriod` (parsed DD-MM-YYYY dates are a
    totally ordered set of calendar days; we embed a parsed date as its
    integer day ordinal, which preserves order and day differences, the only
    two things the code ever uses; concrete January-2026 dates are written
    as their day of month),
  * `vehicle.py` (+ `car.py`, `motorbike.py`, `truck.py`) -> `Vehicle`,
  * `renter.py` (+ the three user variants)  -> `Renter`,
  * `rental_record.py`   -> `RentalRecord`,
  * `vehicle_rental.py`  -> `RentalSystem` with `rentVehicles` /
    `returnVehicles` state transformers.

Money amounts are embedded as rationals; the Python `round(x, 2)` builtin is embedded
as round-half-to-even at cent granularity (`round2`).  Exceptions are
embedded as `Except` results; the engine methods catch every exception and
return a boolean, which we embed as `Bool × RentalSystem` (result plus the
in-place mutations that happened before the failure).

Attributes that no embedded operation ever reads (make, model, year, image
file name, contact details, passwords, wall-clock timestamps) are omitted
from the structures; all ledger-relevant state is carried.
-/

deriving instance DecidableEq for Except

namespace VehicleRentalApp

/-- A parsed calendar date, as its integer day ordinal. -/
abbrev Date := ℤ

/-! ## Rounding (Python `round(x, 2)` on money amounts)

Python rounds to the nearest value, ties to even.  `rhe x` is the integer
nearest to `x` with ties to the even integer; `round2` applies it at cent
granularity. -/

/-- The floor of a rational, computed on its numerator and denominator so
that it evaluates inside the kernel. -/
def ratFloor (x : ℚ) : ℤ := x.num.fdiv x.den

/-- Round half to even: the integer nearest to `x`, ties going to the even
integer.  The fractional part `x - ⌊x⌋ = rn / den` is compared with `1/2`
through the integer comparison of `2 * rn` with `den`, so that the
definition evaluates inside the kernel. -/
def rhe (x : ℚ) : ℤ :=
  let f : ℤ := ratFloor x
  let rn : ℤ := x.num - f * x.den
  if 2 * rn < (x.den : ℤ) then f
  else if (x.den : ℤ) < 2 * rn then f + 1
  else if f % 2 = 0 then f else f + 1

/-- Python `round(x, 2)`: round to the nearest cent, ties to even. -/
def round2 (x : ℚ) : ℚ := (rhe (100 * x) : ℚ) / 100

/-! ## RentalPeriod (`rental_period.py`) -/

/-- RentalPeriod: a validated date range.  `startDate`/`endDate` are the
parsed `DD-MM-YYYY` dates (`__start_date_obj`/`__end_date_obj`). -/
structure RentalPeriod where
  startDate : Date
  endDate : Date
deriving DecidableEq, Repr

namespace RentalPeriod

/-- Constructor validation that matters to the ledger logic: construction
raises `InvalidRentalPeriodError` when the start date is after the end date
(the year-range and not-in-the-past checks constrain which concrete dates
occur, not the ledger algebra). -/
def valid (p : RentalPeriod) : Prop := p.startDate ≤ p.endDate

instance (p : RentalPeriod) : Decidable p.valid := by
  unfold valid; infer_instance

/-- `calculate_duration`: inclusive day count `(end - start).days + 1`. -/
def calculateDuration (p : RentalPeriod) : ℤ := p.endDate - p.startDate + 1

/-- `overlaps_with`: closed intervals intersect,
`not (self.end < other.start or other.end < self.start)`. -/
def overlapsWith (p other : RentalPeriod) : Bool :=
  decide (¬ (p.endDate < other.startDate ∨ other.endDate < p.startDate))

end RentalPeriod

/-! ## Vehicle hierarchy (`vehicle.py`, `car.py`, `motorbike.py`, `truck.py`) -/

/-- Status of an entry in a ledger entry of a vehicle (the string active or
completed). -/
inductive EntryStatus where
  | active
  | completed
deriving DecidableEq, Repr

/-- One entry of `Vehicle.__rental_periods` / `__rental_history`: the dict
appended by `Vehicle.add_rental`.  `actualEndDate` models the optional
`actual_end_date` key written by `remove_rental`. -/
structure RentalEntry where
  startDate : Date
  endDate : Date
  duration : ℤ
  renterId : String
  status : EntryStatus
  actualEndDate : Option Date
deriving DecidableEq, Repr

/-- The variant determining `calculate_rental_cost` dispatch: `Car` and
`Truck` are pass-throughs, `Motorbike` carries the premium-relevant
attributes (engine capacity, bike type, ABS flag). -/
inductive VehicleVariant where
  | car
  | motorbike (engineCapacity : ℤ) (bikeType : String) (hasAbs : Bool)
  | truck
deriving DecidableEq, Repr

/-- A vehicle: identity, validated daily rate, variant, and the reservation
ledger (`__rental_periods`) plus its audit mirror (`__rental_history`). -/
structure Vehicle where
  vehicleId : String
  dailyRate : ℚ
  variant : VehicleVariant
  rentalPeriods : List RentalEntry
  rentalHistory : List RentalEntry
deriving DecidableEq, Repr

/-- Typed errors raised by the embedded operations (`exceptions.py`). -/
inductive RentalError where
  | vehicleNotAvailable (vehicleId : String) (startDate endDate : Date)
deriving DecidableEq, Repr

namespace Vehicle

/-- The effective blocking interval of a ledger entry, as used by
`is_available`: for a completed entry that has an `actual_end_date` key,
the actual end date is the effective end; otherwise the scheduled end.
`is_available` rebuilds a `RentalPeriod` from these dates inside a
`try/except` and skips the entry when the construction fails, i.e. when the
effective end precedes the start. -/
def entryBlocks (e : RentalEntry) (p : RentalPeriod) : Bool :=
  let effEnd : Date :=
    match e.status, e.actualEndDate with
    | .completed, some a => a
    | _, _ => e.endDate
  if e.startDate ≤ effEnd then
    p.overlapsWith ⟨e.startDate, effEnd⟩
  else
    false

/-- `Vehicle.is_available`: true iff no existing ledger entry blocks the
requested period. -/
def isAvailable (v : Vehicle) (p : RentalPeriod) : Bool :=
  v.rentalPeriods.all (fun e => !(entryBlocks e p))

/-- The dict appended by `Vehicle.add_rental`. -/
def newEntry (p : RentalPeriod) (renterId : String) : RentalEntry :=
  { startDate := p.startDate
    endDate := p.endDate
    duration := p.calculateDuration
    renterId := renterId
    status := .active
    actualEndDate := none }

/-- `Vehicle.add_rental`: raises `VehicleNotAvailableError` when the period
is unavailable, otherwise appends an active entry to the ledger and a copy
to the history. -/
def addRental (v : Vehicle) (p : RentalPeriod) (renterId : String) :
    Except RentalError Vehicle :=
  if v.isAvailable p then
    .ok { v with
            rentalPeriods := v.rentalPeriods ++ [newEntry p renterId]
            rentalHistory := v.rentalHistory ++ [newEntry p renterId] }
  else
    .error (.vehicleNotAvailable v.vehicleId p.startDate p.endDate)

/-- First-match update of `remove_rental`: find the first entry matching
the period with status active, mark it completed and record the actual
end date; `none` when no entry matches. -/
def completeFirst (p : RentalPeriod) (actualEnd : Date) :
    List RentalEntry → Option (List RentalEntry)
  | [] => none
  | e :: es =>
      if e.startDate = p.startDate ∧ e.endDate = p.endDate ∧
          e.status = .active then
        some ({ e with status := .completed, actualEndDate := some actualEnd }
          :: es)
      else
        (completeFirst p actualEnd es).map (e :: ·)

/-- `Vehicle.remove_rental`: mark the matching active ledger entry as
completed (recording `actual_return_date`, defaulting to the scheduled end),
mirror the update into the history, and report whether a match was found. -/
def removeRental (v : Vehicle) (p : RentalPeriod)
    (actualReturnDate : Option Date) : Bool × Vehicle :=
  let ae : Date := actualReturnDate.getD p.endDate
  match completeFirst p ae v.rentalPeriods with
  | some ps =>
      let hist := (completeFirst p ae v.rentalHistory).getD v.rentalHistory
      (true, { v with rentalPeriods := ps, rentalHistory := hist })
  | none => (false, v)

/-- `Vehicle.is_currently_rented`: some ledger entry is active. -/
def isCurrentlyRented (v : Vehicle) : Bool :=
  v.rentalPeriods.any (fun e => e.status = .active)

/-- `Vehicle.get_base_rental_cost`: `round(duration * daily_rate, 2)`. -/
def getBaseRentalCost (v : Vehicle) (p : RentalPeriod) : ℚ :=
  round2 (p.calculateDuration * v.dailyRate)

/-- `Vehicle.apply_discount`: clamp an out-of-range discount into `[0, 1]`,
subtract the discount amount, round to cents. -/
def applyDiscount (baseCost discountPercentage : ℚ) : ℚ :=
  let d : ℚ :=
    if 0 ≤ discountPercentage ∧ discountPercentage ≤ 1 then
      discountPercentage
    else
      max 0 (min 1 discountPercentage)
  round2 (baseCost - baseCost * d)

/-- The motorbike premium multiplier (`motorbike.py`): engine-capacity
tier, bike-type tier, and ABS surcharge, added to `1.0`. -/
def motorbikePremium (engineCapacity : ℤ) (bikeType : String)
    (hasAbs : Bool) : ℚ :=
  1
    + (if 1000 ≤ engineCapacity then 1/4
       else if 600 ≤ engineCapacity then 3/20
       else if 300 ≤ engineCapacity then 1/20
       else 0)
    + (if bikeType = "Sport" then 1/5
       else if bikeType = "Adventure" then 3/20
       else if bikeType = "Touring" then 1/10
       else 0)
    + (if hasAbs then 1/20 else 0)

/-- `calculate_rental_cost` dispatched on the variant: Car and Truck apply
the discount to the base cost and round; Motorbike multiplies the base cost
by its premium first. -/
def calculateRentalCost (v : Vehicle) (p : RentalPeriod)
    (userDiscount : ℚ) : ℚ :=
  match v.variant with
  | .car => round2 (applyDiscount (v.getBaseRentalCost p) userDiscount)
  | .truck => round2 (applyDiscount (v.getBaseRentalCost p) userDiscount)
  | .motorbike cap btype habs =>
      round2 (applyDiscount
        (v.getBaseRentalCost p * motorbikePremium cap btype habs)
        userDiscount)

end Vehicle

/-! ## Renter hierarchy (`renter.py`, `individual_user.py`,
`corporate_user.py`, `staff_user.py`) -/

/-- The renter variant determining the `calculate_discount` dispatch. -/
inductive UserType where
  | individual
  | corporate
  | staff
deriving DecidableEq, Repr

/-- One entry of `Renter.__current_rentals` / `__rental_history`: the dict
appended by `Renter.add_rental`.  Its `status` key is the literal string
active or completed, embedded by `EntryStatus`. -/
structure RenterRental where
  vehicleId : String
  startDate : Date
  endDate : Date
  duration : ℤ
  cost : ℚ
  status : EntryStatus
deriving DecidableEq, Repr

/-- A renter: identity, variant, current (active) rentals and full
history. -/
structure Renter where
  renterId : String
  userType : UserType
  currentRentals : List RenterRental
  rentalHistory : List RenterRental
deriving DecidableEq, Repr

namespace Renter

/-- `calculate_discount`, dispatched on the user type: Individual grants
`0.10` for seven or more days, Corporate a flat `0.15`, Staff `0.0`. -/
def calculateDiscount (u : UserType) (p : RentalPeriod) : ℚ :=
  match u with
  | .individual => if 7 ≤ p.calculateDuration then 1/10 else 0
  | .corporate => 3/20
  | .staff => 0

/-- `Renter.can_rent_vehicle` (engine calls it with the default
`max_concurrent_rentals = 5`). -/
def canRentVehicle (r : Renter) : Bool :=
  r.currentRentals.length < 5

/-- `Renter.add_rental`: append an active rental dict to the current list
and a copy to the history. -/
def addRental (r : Renter) (vehicleId : String) (p : RentalPeriod)
    (rentalCost : ℚ) : Renter :=
  let rec' : RenterRental :=
    { vehicleId := vehicleId
      startDate := p.startDate
      endDate := p.endDate
      duration := p.calculateDuration
      cost := rentalCost
      status := .active }
  { r with
      currentRentals := r.currentRentals ++ [rec']
      rentalHistory := r.rentalHistory ++ [rec'] }

/-- First-match removal of `complete_rental`: pop the first current rental
matching the vehicle and the period (the status is not examined). -/
def popFirstMatching (vehicleId : String) (p : RentalPeriod) :
    List RenterRental → Option (List RenterRental)
  | [] => none
  | e :: es =>
      if e.vehicleId = vehicleId ∧ e.startDate = p.startDate ∧
          e.endDate = p.endDate then
        some es
      else
        (popFirstMatching vehicleId p es).map (e :: ·)

/-- First-match history update of `complete_rental`: mark the first history
entry matching the vehicle, the period and status active as
completed. -/
def completeFirstHistory (vehicleId : String) (p : RentalPeriod) :
    List RenterRental → Option (List RenterRental)
  | [] => none
  | e :: es =>
      if e.vehicleId = vehicleId ∧ e.startDate = p.startDate ∧
          e.endDate = p.endDate ∧ e.status = .active then
        some ({ e with status := .completed } :: es)
      else
        (completeFirstHistory vehicleId p es).map (e :: ·)

/-- `Renter.complete_rental`: pop the matching current rental, flip the
matching active history entry to completed, and report whether a current
rental matched. -/
def completeRental (r : Renter) (vehicleId : String) (p : RentalPeriod) :
    Bool × Renter :=
  match popFirstMatching vehicleId p r.currentRentals with
  | some cur =>
      let hist :=
        (completeFirstHistory vehicleId p r.rentalHistory).getD
          r.rentalHistory
      (true, { r with currentRentals := cur, rentalHistory := hist })
  | none => (false, r)

end Renter

/-! ## RentalRecord (`rental_record.py`)

The record stores its dates as raw `DD-MM-YYYY` strings and only ever
compares them as tokens in the code relevant here, so they stay strings.
The wall-clock `created_at`/`updated_at` timestamps are not modeled. -/

/-- A rental transaction record. -/
structure RentalRecord where
  recordId : String
  vehicleId : String
  renterId : String
  startDate : String
  endDate : String
  rentalCost : ℚ
  status : String
  discountApplied : ℚ
deriving DecidableEq, Repr

namespace RentalRecord

/-- Python `str.lower()`, written on the character list so that it
evaluates inside the kernel. -/
def pyLower (s : String) : String := ⟨s.data.map Char.toLower⟩

/-- Python `str.strip()`: drop leading and trailing whitespace. -/
def pyStrip (s : String) : String :=
  ⟨((s.data.dropWhile Char.isWhitespace).reverse.dropWhile
      Char.isWhitespace).reverse⟩

/-- `RentalRecord.VALID_STATUSES`. -/
def validStatuses : List String :=
  ["pending", "active", "completed", "cancelled", "overdue"]

/-- `RentalRecord._validate_status`: lower-case and strip the status
(`status.lower().strip()`), fail unless it is one of the valid statuses. -/
def validateStatus (status : String) : Except String String :=
  let s := pyStrip (pyLower status)
  if s ∈ validStatuses then .ok s
  else .error "Invalid status"

/-- `RentalRecord.__init__`: the status is validated; the rental cost is
stored as given, with no validation. -/
def mk' (recordId vehicleId renterId startDate endDate : String)
    (rentalCost : ℚ) (status : String) (discountApplied : ℚ) :
    Except String RentalRecord :=
  match validateStatus status with
  | .ok st =>
      .ok { recordId := recordId
            vehicleId := vehicleId
            renterId := renterId
            startDate := startDate
            endDate := endDate
            rentalCost := rentalCost
            status := st
            discountApplied := discountApplied }
  | .error e => .error e

/-- `RentalRecord.set_status`: re-validate and store; the current (source)
status is not examined. -/
def setStatus (r : RentalRecord) (status : String) :
    Except String RentalRecord :=
  match validateStatus status with
  | .ok st => .ok { r with status := st }
  | .error e => .error e

/-- `RentalRecord.set_rental_cost`: reject a negative cost, otherwise store
the cost rounded to cents. -/
def setRentalCost (r : RentalRecord) (rentalCost : ℚ) :
    Except String RentalRecord :=
  if rentalCost < 0 then .error "Rental cost cannot be negative"
  else .ok { r with rentalCost := round2 rentalCost }

/-- `RentalRecord.mark_as_active`. -/
def markAsActive (r : RentalRecord) : Except String RentalRecord :=
  r.setStatus "active"

/-- `RentalRecord.mark_as_completed`. -/
def markAsCompleted (r : RentalRecord) : Except String RentalRecord :=
  r.setStatus "completed"

/-- `RentalRecord.is_active`. -/
def isActive (r : RentalRecord) : Bool := r.status = "active"

end RentalRecord

/-! ## ReservationEngine (`vehicle_rental.py`)

Engine state; Python mutates the found vehicle/renter objects in place, so
the embedded operations return the final state, replacing the first
list element with the matching id (the one `_find_*_by_id` returns).  The
engine methods catch every raised exception and convert it to a boolean
result, so they are embedded as `Bool × RentalSystem`: the boolean result
plus whatever in-place mutations had already happened. -/

/-- The `VehicleRental` engine state (the pickle snapshot fields save
timestamps aside). -/
structure RentalSystem where
  vehicles : List Vehicle
  renters : List Renter
  rentalRecords : List RentalRecord
  nextRecordId : ℕ
deriving DecidableEq, Repr

namespace RentalSystem

/-- `VehicleRental._find_vehicle_by_id`: first vehicle with the id. -/
def findVehicleById (s : RentalSystem) (vehicleId : String) :
    Option Vehicle :=
  s.vehicles.find? (fun v => v.vehicleId = vehicleId)

/-- `VehicleRental._find_renter_by_id`: first renter with the id. -/
def findRenterById (s : RentalSystem) (renterId : String) : Option Renter :=
  s.renters.find? (fun r => r.renterId = renterId)

/-- In-place mutation of the vehicle object `_find_vehicle_by_id` returned:
replace the first vehicle with the id. -/
def replaceFirstVehicle (vehicleId : String) (nv : Vehicle) :
    List Vehicle → List Vehicle
  | [] => []
  | v :: vs =>
      if v.vehicleId = vehicleId then nv :: vs
      else v :: replaceFirstVehicle vehicleId nv vs

/-- In-place mutation of the renter object `_find_renter_by_id` returned:
replace the first renter with the id. -/
def replaceFirstRenter (renterId : String) (nr : Renter) :
    List Renter → List Renter
  | [] => []
  | r :: rs =>
      if r.renterId = renterId then nr :: rs
      else r :: replaceFirstRenter renterId nr rs

/-- `VehicleRental.rent_vehicles`: resolve the vehicle (else
`VehicleNotFoundError`, caught, `False`), resolve the renter (else
`RenterNotFoundError`), reject when the renter is at the concurrent-rental
capacity, reject when the vehicle is unavailable
(`VehicleNotAvailableError`, caught), compute the discount and the cost,
append to the vehicle ledger, then append to the renter ledger, and return
`True`.  No failure path mutates any state: everything that can fail runs
before the first mutation. -/
def rentVehicles (s : RentalSystem) (vehicleId renterId : String)
    (p : RentalPeriod) : Bool × RentalSystem :=
  match s.findVehicleById vehicleId with
  | none => (false, s)
  | some v =>
    match s.findRenterById renterId with
    | none => (false, s)
    | some r =>
      if !r.canRentVehicle then (false, s)
      else if !v.isAvailable p then (false, s)
      else
        let userDiscount := Renter.calculateDiscount r.userType p
        let rentalCost := v.calculateRentalCost p userDiscount
        match v.addRental p renterId with
        | .error _ => (false, s)
        | .ok v' =>
          let r' := r.addRental vehicleId p rentalCost
          (true,
            { s with
                vehicles := replaceFirstVehicle vehicleId v' s.vehicles
                renters := replaceFirstRenter renterId r' s.renters })

/-- `VehicleRental.return_vehicles`: resolve the vehicle and the renter,
raise `VehicleAlreadyReturnedError` (caught, `False`) when the vehicle has
no active rental, complete the vehicle-side entry via `remove_rental`
(failure: `False`, nothing mutated), then complete the renter-side entry
via `complete_rental`.  When the renter side fails the code attempts the
rollback with `vehicle.add_rental(rental_period, renter_id)`; when that
raises (the freshly completed entry still blocks the period) the exception
is swallowed by the outer handler and the completed vehicle-side mutation
stays in place. -/
def returnVehicles (s : RentalSystem) (vehicleId renterId : String)
    (p : RentalPeriod) : Bool × RentalSystem :=
  match s.findVehicleById vehicleId with
  | none => (false, s)
  | some v =>
    match s.findRenterById renterId with
    | none => (false, s)
    | some r =>
      if !v.isCurrentlyRented then (false, s)
      else
        match v.removeRental p none with
        | (false, _) => (false, s)
        | (true, v₁) =>
          match r.completeRental vehicleId p with
          | (true, r₁) =>
              (true,
                { s with
                    vehicles := replaceFirstVehicle vehicleId v₁ s.vehicles
                    renters := replaceFirstRenter renterId r₁ s.renters })
          | (false, _) =>
              match v₁.addRental p renterId with
              | .ok v₂ =>
                  (false,
                    { s with
                        vehicles :=
                          replaceFirstVehicle vehicleId v₂ s.vehicles })
              | .error _ =>
                  (false,
                    { s with
                        vehicles :=
                          replaceFirstVehicle vehicleId v₁ s.vehicles })

/-- `VehicleRental.get_rental_records_by_renter`. -/
def getRentalRecordsByRenter (s : RentalSystem) (renterId : String) :
    List RentalRecord :=
  s.rentalRecords.filter (fun r => r.renterId = renterId)

/-- `VehicleRental.get_rental_records_by_vehicle`. -/
def getRentalRecordsByVehicle (s : RentalSystem) (vehicleId : String) :
    List RentalRecord :=
  s.rentalRecords.filter (fun r => r.vehicleId = vehicleId)

end RentalSystem

/-- The reference discount policy, stated in the words of the specification
(Individual: 0.10 for seven or more days, otherwise 0; Corporate: flat
0.15; Staff: 0), to be compared with the embedded `calculate_discount`. -/
def specDiscountPolicy : UserType → RentalPeriod → ℚ
  | .individual, p => if p.calculateDuration ≥ 7 then 1/10 else 0
  | .corporate, _ => 3/20
  | .staff, _ => 0

/-! ## Concrete states used by the closed theorems below -/

/-- A car with one active ledger entry for days 1..5 of January 2026,
rented by renter I001. -/
def c1Car : Vehicle :=
  { vehicleId := "CAR001", dailyRate := 65, variant := .car,
    rentalPeriods := [⟨1, 5, 5, "I001", .active, none⟩],
    rentalHistory := [⟨1, 5, 5, "I001", .active, none⟩] }

/-- A renter whose current-rental list does not contain the matching
rental, so the renter-side completion of a return fails. -/
def c1Renter : Renter :=
  { renterId := "I001", userType := .individual,
    currentRentals := [], rentalHistory := [] }

/-- Engine state in which CAR001 has an active rental that renter I001
does not have on record. -/
def c1Sys : RentalSystem :=
  { vehicles := [c1Car], renters := [c1Renter], rentalRecords := [],
    nextRecordId := 1 }

/-- A fresh car with an empty ledger. -/
def c2V0 : Vehicle :=
  { vehicleId := "CAR001", dailyRate := 65, variant := .car,
    rentalPeriods := [], rentalHistory := [] }

/-- The car after booking days 1..5 for renter I001. -/
def c2V1 : Vehicle :=
  { vehicleId := "CAR001", dailyRate := 65, variant := .car,
    rentalPeriods := [⟨1, 5, 5, "I001", .active, none⟩],
    rentalHistory := [⟨1, 5, 5, "I001", .active, none⟩] }

/-- A car with daily rate 65.00 and an empty ledger. -/
def c4Car : Vehicle :=
  { vehicleId := "CAR001", dailyRate := 65, variant := .car,
    rentalPeriods := [], rentalHistory := [] }

/-- A fresh vehicle with an empty ledger. -/
def c5V : Vehicle :=
  { vehicleId := "CAR001", dailyRate := 65, variant := .car,
    rentalPeriods := [], rentalHistory := [] }

/-- The vehicle after renting days 1..5 to renter I001. -/
def c5V1 : Vehicle :=
  { vehicleId := "CAR001", dailyRate := 65, variant := .car,
    rentalPeriods := [⟨1, 5, 5, "I001", .active, none⟩],
    rentalHistory := [⟨1, 5, 5, "I001", .active, none⟩] }

/-- A fresh car for the record-creation counterexample. -/
def c6Car : Vehicle :=
  { vehicleId := "CAR001", dailyRate := 65, variant := .car,
    rentalPeriods := [], rentalHistory := [] }

/-- A renter with no rentals. -/
def c6Renter : Renter :=
  { renterId := "I001", userType := .individual,
    currentRentals := [], rentalHistory := [] }

/-- Engine state with one fresh car, one renter, and an empty
rental-record list. -/
def c6Sys : RentalSystem :=
  { vehicles := [c6Car], renters := [c6Renter], rentalRecords := [],
    nextRecordId := 1 }

/-- A fresh car for the capacity-failure frame theorem. -/
def c7Car : Vehicle :=
  { vehicleId := "CAR001", dailyRate := 65, variant := .car,
    rentalPeriods := [], rentalHistory := [] }

/-- A renter already holding five active rentals (the concurrency cap). -/
def c7Renter : Renter :=
  { renterId := "I005", userType := .individual,
    currentRentals :=
      [⟨"V1", 1, 2, 2, 10, .active⟩, ⟨"V2", 1, 2, 2, 10, .active⟩,
       ⟨"V3", 1, 2, 2, 10, .active⟩, ⟨"V4", 1, 2, 2, 10, .active⟩,
       ⟨"V5", 1, 2, 2, 10, .active⟩],
    rentalHistory := [] }

/-- Engine state whose renter is at the concurrent-rental capacity. -/
def c7Sys : RentalSystem :=
  { vehicles := [c7Car], renters := [c7Renter], rentalRecords := [],
    nextRecordId := 1 }

/-- A rental record in the terminal status completed. -/
def c8Rec : RentalRecord :=
  { recordId := "R00001", vehicleId := "CAR001", renterId := "I001",
    startDate := "01-01-2026", endDate := "05-01-2026",
    rentalCost := 325, status := "completed", discountApplied := 0 }

/-- A rental record as constructed with a negative rental cost. -/
def c9Bad : RentalRecord :=
  { recordId := "R00001", vehicleId := "CAR001", renterId := "I001",
    startDate := "01-01-2026", endDate := "05-01-2026",
    rentalCost := -5, status := "pending", discountApplied := 0 }

/-- An ordinary rental record used to exercise `set_rental_cost`. -/
def c9Rec : RentalRecord :=
  { recordId := "R00002", vehicleId := "CAR001", renterId := "I001",
    startDate := "01-01-2026", endDate := "05-01-2026",
    rentalCost := 325, status := "active", discountApplied := 0 }

/-! ## Helper lemmas about the rounding function -/

set_option maxRecDepth 100000

theorem ratFloor_eq (x : ℚ) : ratFloor x = ⌊x⌋ := by
  rw [ratFloor, Int.fdiv_eq_ediv _ (Int.natCast_nonneg _), Rat.floor_def]

theorem sub_intCast_eq (x : ℚ) (f : ℤ) :
    x - (f : ℚ) = ((x.num - f * x.den : ℤ) : ℚ) / (x.den : ℚ) := by
  have hden : ((x.den : ℚ)) ≠ 0 := by
    exact_mod_cast x.den_nz
  push_cast
  rw [sub_div]
  congr 1
  · exact (Rat.num_div_den x).symm
  · exact (mul_div_cancel_right₀ (f : ℚ) hden).symm

theorem floor_le_rhe (x : ℚ) : ⌊x⌋ ≤ rhe x := by
  simp only [rhe, ratFloor_eq]
  split_ifs <;> omega

theorem rhe_le_floor_add_one (x : ℚ) : rhe x ≤ ⌊x⌋ + 1 := by
  simp only [rhe, ratFloor_eq]
  split_ifs <;> omega

theorem rhe_intCast (m : ℤ) : rhe ((m : ℚ)) = m := by
  simp only [rhe, ratFloor_eq, Int.floor_intCast, Rat.num_intCast,
    Rat.den_intCast]
  norm_num

theorem rhe_nonneg (x : ℚ) (h : 0 ≤ x) : 0 ≤ rhe x :=
  le_trans (Int.floor_nonneg.mpr h) (floor_le_rhe x)

theorem den_le_two_rn (x : ℚ)
    (h : ¬ 2 * (x.num - ⌊x⌋ * (x.den : ℤ)) < (x.den : ℤ)) :
    (1 : ℚ)/2 ≤ x - (⌊x⌋ : ℚ) := by
  have hden : (0 : ℚ) < (x.den : ℚ) := by exact_mod_cast x.den_pos
  rw [sub_intCast_eq x ⌊x⌋, le_div_iff₀ hden]
  have h' : ((x.den : ℤ) : ℚ) ≤ ((2 * (x.num - ⌊x⌋ * (x.den : ℤ)) : ℤ) : ℚ) := by
    exact_mod_cast not_lt.mp h
  push_cast at h' ⊢
  linarith

theorem rhe_le_ceil (x : ℚ) : rhe x ≤ ⌈x⌉ := by
  have hfc : ⌊x⌋ ≤ ⌈x⌉ := Int.floor_le_ceil x
  simp only [rhe, ratFloor_eq]
  split_ifs with h1 h2 h3
  · exact hfc
  all_goals {
    first
    | exact hfc
    | { have hh : (1 : ℚ)/2 ≤ x - (⌊x⌋ : ℚ) := den_le_two_rn x h1
        have hlt : (⌊x⌋ : ℚ) < x := by linarith
        have : ⌊x⌋ < ⌈x⌉ := Int.lt_ceil.mpr hlt
        omega } }

theorem rhe_cast_le (x : ℚ) : (rhe x : ℚ) ≤ x + 1/2 := by
  simp only [rhe, ratFloor_eq]
  split_ifs with h1 h2 h3
  · have := Int.floor_le x
    linarith
  · have hh := den_le_two_rn x h1
    push_cast
    linarith
  · have := Int.floor_le x
    linarith
  · have hh := den_le_two_rn x h1
    push_cast
    linarith

theorem round2_cents (k : ℤ) : round2 ((k : ℚ)/100) = (k : ℚ)/100 := by
  have h : (100 : ℚ) * ((k : ℚ)/100) = (k : ℚ) := by field_simp
  rw [round2, h, rhe_intCast]

theorem round2_intCast (m : ℤ) : round2 ((m : ℚ)) = m := by
  have h : ((m : ℚ)) = ((100 * m : ℤ) : ℚ)/100 := by push_cast; field_simp
  rw [h, round2_cents]

theorem round2_idem (x : ℚ) : round2 (round2 x) = round2 x :=
  round2_cents (rhe (100 * x))

theorem round2_nonneg (x : ℚ) (h : 0 ≤ x) : 0 ≤ round2 x := by
  have h1 : (0 : ℤ) ≤ rhe (100 * x) := rhe_nonneg _ (by linarith)
  have h2 : (0 : ℚ) ≤ (rhe (100 * x) : ℚ) := by exact_mod_cast h1
  rw [round2]
  positivity

theorem round2_le_half_cent (x : ℚ) : round2 x ≤ x + 1/200 := by
  have h := rhe_cast_le (100 * x)
  rw [round2]
  linarith

theorem round2_le_cents (x : ℚ) (k : ℤ) (h : x ≤ (k : ℚ)/100) :
    round2 x ≤ (k : ℚ)/100 := by
  have h1 : (100 : ℚ) * x ≤ (k : ℚ) := by linarith
  have h2 : ⌈(100 : ℚ) * x⌉ ≤ k := Int.ceil_le.mpr h1
  have h3 : rhe (100 * x) ≤ k := le_trans (rhe_le_ceil _) h2
  have h4 : ((rhe (100 * x)) : ℚ) ≤ (k : ℚ) := by exact_mod_cast h3
  rw [round2]
  linarith

/-- `overlaps_with` is symmetric. -/
theorem overlapsWith_symm (p q : RentalPeriod) :
    p.overlapsWith q = q.overlapsWith p := by
  unfold RentalPeriod.overlapsWith
  exact decide_eq_decide.mpr (by tauto)

/-! ## Claim theorems -/

/-- Claim C3: for every valid rental period, `calculate_discount` equals
the reference discount policy of the specification: Individual renters get
0.10 exactly when the duration is at least 7 days, Corporate renters get a
flat 0.15, Staff renters get 0. -/
theorem calculateDiscount_matches_spec (u : UserType) (p : RentalPeriod)
    (hp : p.valid) :
    Renter.calculateDiscount u p = specDiscountPolicy u p := by
  cases u <;> rfl

/-- Claim C3 witness: concrete durations 6, 7, 14 for an Individual renter
give 0, 0.10, 0.10; a Corporate renter gets 0.15 for a 1-day rental; a
Staff renter gets 0 for a 30-day rental. -/
theorem calculateDiscount_matches_spec_witness :
    Renter.calculateDiscount .individual ⟨1, 6⟩
        = specDiscountPolicy .individual ⟨1, 6⟩ ∧
    Renter.calculateDiscount .individual ⟨1, 6⟩ = 0 ∧
    Renter.calculateDiscount .individual ⟨1, 7⟩ = 1/10 ∧
    Renter.calculateDiscount .individual ⟨1, 14⟩ = 1/10 ∧
    Renter.calculateDiscount .corporate ⟨1, 1⟩ = 3/20 ∧
    Renter.calculateDiscount .staff ⟨1, 30⟩ = 0 :=
  ⟨calculateDiscount_matches_spec .individual ⟨1, 6⟩ (by decide),
   by with_unfolding_all decide, by with_unfolding_all decide,
   by with_unfolding_all decide, by with_unfolding_all decide,
   by with_unfolding_all decide⟩

/-- Claim C10 counterexample: `apply_discount` applied to the base cost
0.006 with discount 0 returns 0.01, which is strictly greater than the
base cost, so the returned cost does not always lie between 0 and the base
cost. -/
theorem applyDiscount_exceeds_base_cex :
    Vehicle.applyDiscount (6/1000) 0 = 1/100 ∧
    ¬ (Vehicle.applyDiscount (6/1000) 0 ≤ 6/1000) := by
  with_unfolding_all decide

/-- Claim C10 (amended): for every base cost `c ≥ 0` and every discount
`d`, `apply_discount c d` equals `round2 (c * (1 - min 1 (max 0 d)))` (the
out-of-range discount is silently clamped), and the returned cost lies
between `0` and `c + 0.005`; when `c` is a whole number of cents (as every
base cost produced by the validated daily rates is) the result is at most
`c` itself. -/
theorem applyDiscount_clamp_spec (c d : ℚ) (hc : 0 ≤ c) :
    Vehicle.applyDiscount c d = round2 (c * (1 - min 1 (max 0 d))) ∧
    0 ≤ Vehicle.applyDiscount c d ∧
    Vehicle.applyDiscount c d ≤ c + 1/200 ∧
    ((100 * c).den = 1 → Vehicle.applyDiscount c d ≤ c) := by
  set dc := min 1 (max 0 d) with hdc
  have hd0 : 0 ≤ dc := le_min zero_le_one (le_max_left 0 d)
  have hd1 : dc ≤ 1 := min_le_left _ _
  have heq : Vehicle.applyDiscount c d = round2 (c - c * dc) := by
    unfold Vehicle.applyDiscount
    by_cases h : 0 ≤ d ∧ d ≤ 1
    · rw [if_pos h, hdc, max_eq_right h.1, min_eq_right h.2]
    · rw [if_neg h, hdc, max_min_distrib_left,
        max_eq_right (zero_le_one : (0:ℚ) ≤ 1)]
  have hx0 : 0 ≤ c - c * dc := by
    have h1 : 0 ≤ c * (1 - dc) := mul_nonneg hc (by linarith)
    nlinarith
  have hxle : c - c * dc ≤ c := by
    have h1 : 0 ≤ c * dc := mul_nonneg hc hd0
    linarith
  refine ⟨?_, ?_, ?_, ?_⟩
  · rw [heq]; congr 1; ring
  · rw [heq]; exact round2_nonneg _ hx0
  · rw [heq]; exact le_trans (round2_le_half_cent _) (by linarith)
  · intro hden
    have hnum : ((100 * c).num : ℚ) = 100 * c := by
      conv_rhs => rw [← Rat.num_div_den (100 * c)]
      rw [hden]
      push_cast
      ring
    have hcrep : c = (((100 * c).num : ℤ) : ℚ)/100 := by
      rw [hnum]; ring
    rw [heq]
    calc round2 (c - c * dc) ≤ (((100 * c).num : ℤ) : ℚ)/100 :=
          round2_le_cents _ _ (by rw [← hcrep]; exact hxle)
      _ = c := hcrep.symm

/-- Claim C10 witness: the amended theorem at the concrete base cost 325
and out-of-range discount 2, with the whole-cent bound discharged. -/
theorem applyDiscount_clamp_spec_witness :
    Vehicle.applyDiscount 325 2 = round2 (325 * (1 - min 1 (max 0 2))) ∧
    0 ≤ Vehicle.applyDiscount 325 2 ∧
    Vehicle.applyDiscount 325 2 ≤ 325 + 1/200 ∧
    Vehicle.applyDiscount 325 2 ≤ 325 :=
  have h := applyDiscount_clamp_spec 325 2 (by norm_num)
  ⟨h.1, h.2.1, h.2.2.1, h.2.2.2 (by with_unfolding_all decide)⟩

/-- Claim C8 counterexample: a record in the terminal status completed is
moved back to active by `mark_as_active` (which goes through `set_status`):
the transition system is not monotonic, because `_validate_status` only
checks membership of the target in `VALID_STATUSES` and never examines the
source status. -/
theorem setStatus_terminal_to_active_cex :
    c8Rec.status = "completed" ∧
    RentalRecord.markAsActive c8Rec = .ok { c8Rec with status := "active" } := by
  with_unfolding_all decide

/-- Claim C8 (amended): `set_status` (and therefore every `mark_as_*`
helper) validates only that the normalized target status is one of
{pending, active, completed, cancelled, overdue}; the source status is not
examined, so a record in a terminal state can be moved back to pending or
active.  Any valid target is accepted from any source state. -/
theorem setStatus_only_validates_target (r : RentalRecord) (s : String)
    (h : RentalRecord.pyStrip (RentalRecord.pyLower s) ∈ RentalRecord.validStatuses) :
    r.setStatus s = .ok { r with status := RentalRecord.pyStrip (RentalRecord.pyLower s) } := by
  unfold RentalRecord.setStatus RentalRecord.validateStatus
  simp only [if_pos h]

/-- Claim C8 witness: the amended theorem applied to the completed record
and the target status active. -/
theorem setStatus_only_validates_target_witness :
    c8Rec.setStatus "active"
        = .ok { c8Rec with status := RentalRecord.pyStrip (RentalRecord.pyLower "active") } ∧
    RentalRecord.pyStrip (RentalRecord.pyLower "active") = "active" :=
  ⟨setStatus_only_validates_target c8Rec "active" (by decide), by decide⟩

/-- Claim C9 counterexample: the constructor stores a negative rental cost
without validation, so a freshly constructed record can report a negative
`get_rental_cost`. -/
theorem mk_negative_cost_cex :
    RentalRecord.mk' "R00001" "CAR001" "I001" "01-01-2026" "05-01-2026"
        (-5) "pending" 0 = .ok c9Bad ∧
    ¬ (0 ≤ c9Bad.rentalCost) := by
  with_unfolding_all decide

/-- Claim C9 (amended): `set_rental_cost` rejects every negative cost and
stores a nonnegative cost rounded to cents (so the cost is nonnegative
after every successful `set_rental_cost`), but the constructor stores the
given `rental_cost` unvalidated, so the invariant does not hold at
construction. -/
theorem setRentalCost_spec (r : RentalRecord) (c : ℚ) :
    (c < 0 → r.setRentalCost c = .error "Rental cost cannot be negative") ∧
    (0 ≤ c → r.setRentalCost c = .ok { r with rentalCost := round2 c } ∧
      0 ≤ round2 c) := by
  constructor
  · intro h
    unfold RentalRecord.setRentalCost
    rw [if_pos h]
  · intro h
    unfold RentalRecord.setRentalCost
    rw [if_neg (not_lt.mpr h)]
    exact ⟨rfl, round2_nonneg c h⟩

/-- Claim C9 witness: setting cost -1 on a record is rejected, and setting
cost 325 stores a nonnegative rounded cost. -/
theorem setRentalCost_spec_witness :
    c9Rec.setRentalCost (-1) = .error "Rental cost cannot be negative" ∧
    (c9Rec.setRentalCost 325 = .ok { c9Rec with rentalCost := round2 325 } ∧
      0 ≤ round2 (325 : ℚ)) :=
  ⟨(setRentalCost_spec c9Rec (-1)).1 (by norm_num),
   (setRentalCost_spec c9Rec 325).2 (by norm_num)⟩

/-- Claim C2: for valid overlapping periods on the same vehicle, after the
first booking succeeds the second attempt finds the vehicle unavailable and
fails with `VehicleNotAvailableError`: overlapping bookings succeed on at
most one of the two periods, in either order of attempts. -/
theorem addRental_second_overlapping_fails (v v' : Vehicle)
    (p₁ p₂ : RentalPeriod) (r₁ r₂ : String)
    (h₁ : p₁.valid) (h₂ : p₂.valid)
    (hov : p₁.overlapsWith p₂ = true)
    (hadd : v.addRental p₁ r₁ = .ok v') :
    v'.addRental p₂ r₂
      = .error (.vehicleNotAvailable v'.vehicleId p₂.startDate p₂.endDate) := by
  unfold Vehicle.addRental at hadd
  by_cases hav : v.isAvailable p₁
  · rw [if_pos hav] at hadd
    injection hadd with hv'
    subst hv'
    have hbl : Vehicle.entryBlocks (Vehicle.newEntry p₁ r₁) p₂ = true := by
      unfold Vehicle.entryBlocks Vehicle.newEntry
      simp only
      have h₁' : p₁.startDate ≤ p₁.endDate := h₁
      rw [if_pos h₁']
      rw [show (⟨p₁.startDate, p₁.endDate⟩ : RentalPeriod) = p₁ from rfl]
      rw [← overlapsWith_symm]
      exact hov
    have hnav : Vehicle.isAvailable
        { v with
            rentalPeriods := v.rentalPeriods ++ [Vehicle.newEntry p₁ r₁]
            rentalHistory := v.rentalHistory ++ [Vehicle.newEntry p₁ r₁] }
        p₂ = false := by
      unfold Vehicle.isAvailable
      simp [List.all_append, hbl]
    unfold Vehicle.addRental
    rw [hnav]
    rfl
  · rw [if_neg hav] at hadd
    exact absurd hadd (by simp)

/-- Claim C2 witness: booking days 1..5 of January 2026 on a fresh car
succeeds and produces `c2V1`; the overlapping booking 3..8 then fails with
`VehicleNotAvailableError`. -/
theorem addRental_second_overlapping_fails_witness :
    c2V1.addRental ⟨3, 8⟩ "C001"
      = .error (.vehicleNotAvailable c2V1.vehicleId 3 8) :=
  addRental_second_overlapping_fails c2V0 c2V1 ⟨1, 5⟩ ⟨3, 8⟩ "I001" "C001"
    (by decide) (by decide) (by decide) (by decide)

/-- Claim C4: for every Car (validated daily rate, a whole number of
cents), every valid period and every discount in `[0, 1]`, the rental cost
is `round(duration_days * daily_rate * (1 - d), 2)` with no variant
premium. -/
theorem car_calculateRentalCost_formula (v : Vehicle) (p : RentalPeriod)
    (d : ℚ) (hvar : v.variant = .car) (hp : p.valid)
    (hk : ∃ k : ℤ, v.dailyRate = (k : ℚ)/100)
    (hd0 : 0 ≤ d) (hd1 : d ≤ 1) :
    v.calculateRentalCost p d
      = round2 ((p.calculateDuration : ℚ) * v.dailyRate * (1 - d)) := by
  obtain ⟨k, hk⟩ := hk
  have hbase : v.getBaseRentalCost p
      = (p.calculateDuration : ℚ) * v.dailyRate := by
    unfold Vehicle.getBaseRentalCost
    rw [hk]
    have hrepr : (p.calculateDuration : ℚ) * ((k : ℚ)/100)
        = ((p.calculateDuration * k : ℤ) : ℚ)/100 := by
      push_cast
      ring
    rw [hrepr, round2_cents]
  have happ : Vehicle.applyDiscount (v.getBaseRentalCost p) d
      = round2 ((p.calculateDuration : ℚ) * v.dailyRate * (1 - d)) := by
    unfold Vehicle.applyDiscount
    rw [if_pos ⟨hd0, hd1⟩, hbase]
    ring_nf
  simp only [Vehicle.calculateRentalCost, hvar]
  rw [happ, round2_idem]

/-- Claim C4 witness: for daily rate 65.00 and the 5-day period, discount 0
gives 325.00 and discount 0.15 gives 276.25. -/
theorem car_calculateRentalCost_formula_witness :
    (c4Car.calculateRentalCost ⟨1, 5⟩ 0
        = round2 ((RentalPeriod.calculateDuration ⟨1, 5⟩ : ℚ)
            * c4Car.dailyRate * (1 - 0)) ∧
      c4Car.calculateRentalCost ⟨1, 5⟩ 0 = 325) ∧
    (c4Car.calculateRentalCost ⟨1, 5⟩ (3/20)
        = round2 ((RentalPeriod.calculateDuration ⟨1, 5⟩ : ℚ)
            * c4Car.dailyRate * (1 - 3/20)) ∧
      c4Car.calculateRentalCost ⟨1, 5⟩ (3/20) = 1105/4) :=
  ⟨⟨car_calculateRentalCost_formula c4Car ⟨1, 5⟩ 0 rfl (by decide)
      ⟨6500, by with_unfolding_all decide⟩ (by norm_num) (by norm_num),
    by with_unfolding_all decide⟩,
   ⟨car_calculateRentalCost_formula c4Car ⟨1, 5⟩ (3/20) rfl (by decide)
      ⟨6500, by with_unfolding_all decide⟩ (by norm_num) (by norm_num),
    by with_unfolding_all decide⟩⟩

/-- Claim C5: on a vehicle with an empty ledger, renting a valid period
and then returning it with the scheduled end date (no actual return date)
succeeds, leaves `is_currently_rented` false, and leaves the vehicle
available for every valid period that does not overlap the completed
interval up to its actual return date (the scheduled end), so such a
period can be rented again. -/
theorem rent_return_round_trip (v v₁ : Vehicle) (p q : RentalPeriod)
    (rid rid₂ : String)
    (hempty : v.rentalPeriods = [])
    (hp : p.valid) (hq : q.valid)
    (hnov : q.overlapsWith ⟨p.startDate, p.endDate⟩ = false)
    (hadd : v.addRental p rid = .ok v₁) :
    (v₁.removeRental p none).1 = true ∧
    (v₁.removeRental p none).2.isCurrentlyRented = false ∧
    (v₁.removeRental p none).2.isAvailable q = true ∧
    ((v₁.removeRental p none).2.addRental q rid₂).isOk = true := by
  unfold Vehicle.addRental at hadd
  have hav : v.isAvailable p = true := by
    unfold Vehicle.isAvailable
    rw [hempty]
    rfl
  rw [if_pos hav] at hadd
  injection hadd with hv₁
  subst hv₁
  have hcf : Vehicle.completeFirst p p.endDate [Vehicle.newEntry p rid]
      = some [{ Vehicle.newEntry p rid with
          status := .completed, actualEndDate := some p.endDate }] := by
    unfold Vehicle.completeFirst Vehicle.newEntry
    simp
  have hrm1 : ((Vehicle.removeRental
      { v with
          rentalPeriods := v.rentalPeriods ++ [Vehicle.newEntry p rid]
          rentalHistory := v.rentalHistory ++ [Vehicle.newEntry p rid] }
      p none)).2.rentalPeriods
      = [{ Vehicle.newEntry p rid with
          status := .completed, actualEndDate := some p.endDate }] := by
    unfold Vehicle.removeRental
    rw [hempty]
    simp only [List.nil_append, Option.getD_none]
    rw [hcf]
  have hrm0 : ((Vehicle.removeRental
      { v with
          rentalPeriods := v.rentalPeriods ++ [Vehicle.newEntry p rid]
          rentalHistory := v.rentalHistory ++ [Vehicle.newEntry p rid] }
      p none)).1 = true := by
    unfold Vehicle.removeRental
    rw [hempty]
    simp only [List.nil_append, Option.getD_none]
    rw [hcf]
  have hicr : ((Vehicle.removeRental
      { v with
          rentalPeriods := v.rentalPeriods ++ [Vehicle.newEntry p rid]
          rentalHistory := v.rentalHistory ++ [Vehicle.newEntry p rid] }
      p none)).2.isCurrentlyRented = false := by
    unfold Vehicle.isCurrentlyRented
    rw [hrm1]
    rfl
  have hblock : Vehicle.entryBlocks
      { Vehicle.newEntry p rid with
          status := .completed, actualEndDate := some p.endDate } q = false := by
    unfold Vehicle.entryBlocks Vehicle.newEntry
    simp only
    have hp' : p.startDate ≤ p.endDate := hp
    rw [if_pos hp']
    exact hnov
  have hava : ((Vehicle.removeRental
      { v with
          rentalPeriods := v.rentalPeriods ++ [Vehicle.newEntry p rid]
          rentalHistory := v.rentalHistory ++ [Vehicle.newEntry p rid] }
      p none)).2.isAvailable q = true := by
    unfold Vehicle.isAvailable
    rw [hrm1]
    simp [hblock]
  refine ⟨hrm0, hicr, hava, ?_⟩
  unfold Vehicle.addRental
  rw [if_pos hava]
  rfl

/-- Claim C5 witness: renting CAR001 for days 1..5 of January 2026
produces `c5V1`; returning it with the scheduled end date succeeds, leaves
the car not currently rented, and the non-overlapping period 10..15 is
available and can be rented. -/
theorem rent_return_round_trip_witness :
    (c5V1.removeRental ⟨1, 5⟩ none).1 = true ∧
    (c5V1.removeRental ⟨1, 5⟩ none).2.isCurrentlyRented = false ∧
    (c5V1.removeRental ⟨1, 5⟩ none).2.isAvailable ⟨10, 15⟩ = true ∧
    ((c5V1.removeRental ⟨1, 5⟩ none).2.addRental ⟨10, 15⟩ "I001").isOk = true :=
  rent_return_round_trip c5V c5V1 ⟨1, 5⟩ ⟨10, 15⟩ "I001" "I001" rfl
    (by decide) (by decide) (by decide) (by with_unfolding_all decide)

/-- Claim C7: a `rent_vehicles` call that fails because the renter is at
the concurrent-rental capacity returns false and leaves the whole engine
state unchanged, so the target vehicle answers `is_available` identically
for every period. -/
theorem rentVehicles_at_capacity_frame (s : RentalSystem)
    (vehicleId renterId : String) (p : RentalPeriod) (v : Vehicle)
    (r : Renter)
    (hv : s.findVehicleById vehicleId = some v)
    (hr : s.findRenterById renterId = some r)
    (hcap : r.canRentVehicle = false) :
    s.rentVehicles vehicleId renterId p = (false, s) ∧
    ∀ q : RentalPeriod,
      ((s.rentVehicles vehicleId renterId p).2.findVehicleById
          vehicleId).map (fun w => w.isAvailable q)
        = some (v.isAvailable q) := by
  have h1 : s.rentVehicles vehicleId renterId p = (false, s) := by
    simp [RentalSystem.rentVehicles, hv, hr, hcap]
  refine ⟨h1, fun q => ?_⟩
  rw [h1, hv]
  rfl

/-- Claim C7 witness: with renter I005 already holding five active
rentals, renting CAR001 fails and the state, hence the availability of
CAR001 for the period 1..5, is unchanged. -/
theorem rentVehicles_at_capacity_frame_witness :
    c7Sys.rentVehicles "CAR001" "I005" ⟨10, 15⟩ = (false, c7Sys) ∧
    ((c7Sys.rentVehicles "CAR001" "I005" ⟨10, 15⟩).2.findVehicleById
        "CAR001").map (fun w => w.isAvailable ⟨1, 5⟩)
      = some (c7Car.isAvailable ⟨1, 5⟩) :=
  have h := rentVehicles_at_capacity_frame c7Sys "CAR001" "I005" ⟨10, 15⟩
    c7Car c7Renter (by with_unfolding_all decide)
    (by with_unfolding_all decide) (by decide)
  ⟨h.1, h.2 ⟨1, 5⟩⟩

/-- Claim C6 counterexample: a successful `rent_vehicles` call on a fresh
system returns true but creates no `RentalRecord`: the authoritative
rental-record list stays empty and both record queries return nothing. -/
theorem rentVehicles_creates_no_record_cex :
    (c6Sys.rentVehicles "CAR001" "I001" ⟨1, 5⟩).1 = true ∧
    (c6Sys.rentVehicles "CAR001" "I001" ⟨1, 5⟩).2.rentalRecords = [] ∧
    (c6Sys.rentVehicles "CAR001" "I001" ⟨1, 5⟩).2.getRentalRecordsByRenter
        "I001" = [] ∧
    (c6Sys.rentVehicles "CAR001" "I001" ⟨1, 5⟩).2.getRentalRecordsByVehicle
        "CAR001" = [] := by
  with_unfolding_all decide

/-- Claim C6 (amended): `rent_vehicles` never touches the rental-record
list: after any call, successful or not, the list is exactly what it was
before (records are created only by explicit `add_rental_record` calls,
which no rent path invokes). -/
theorem rentVehicles_rentalRecords_unchanged (s : RentalSystem)
    (vehicleId renterId : String) (p : RentalPeriod) :
    (s.rentVehicles vehicleId renterId p).2.rentalRecords
      = s.rentalRecords := by
  unfold RentalSystem.rentVehicles
  cases hfv : s.findVehicleById vehicleId with
  | none => rfl
  | some v =>
    cases hfr : s.findRenterById renterId with
    | none => rfl
    | some r =>
      cases hcap : r.canRentVehicle <;>
        cases hav : v.isAvailable p <;>
          simp only [hcap, hav, Bool.not_false, Bool.not_true,
            if_true, if_false] <;>
        try rfl
      cases hadd : v.addRental p renterId <;> rfl

/-- Claim C1 evaluation (code bug): on a state where the vehicle-side
completion succeeds but the renter-side `complete_rental` fails, the
return operation returns false as required, but the vehicle ledger entry
is left in status completed instead of being restored to active (the
rollback call `vehicle.add_rental` raises `VehicleNotAvailableError`
against the freshly completed entry and the exception is swallowed), so
`is_currently_rented()` flips from true to false. -/
theorem returnVehicles_rollback_leaves_completed :
    c1Car.isCurrentlyRented = true ∧
    (c1Car.removeRental ⟨1, 5⟩ none).1 = true ∧
    c1Renter.completeRental "CAR001" ⟨1, 5⟩ = (false, c1Renter) ∧
    (c1Sys.returnVehicles "CAR001" "I001" ⟨1, 5⟩).1 = false ∧
    ((c1Sys.returnVehicles "CAR001" "I001" ⟨1, 5⟩).2.findVehicleById
        "CAR001").map
        (fun w => (w.isCurrentlyRented, w.rentalPeriods.map (fun e => e.status)))
      = some (false, [.completed]) := by
  with_unfolding_all decide

end VehicleRentalApp
